import Mathlib

/-!
# AudioTrack (oslmp::impl) : a shallow embedding of `AudioTrack.cpp`

The C++ class `oslmp::impl::AudioTrack` wraps an `android.media.AudioTrack`
object through JNI.  The embedding below keeps

* the fields of the track as a record (`AudioTrack`),
* the JNI environment as explicit state (`JNIEnv`): the pending-exception
  flag, the list of JNI calls performed so far, and the platform itself, a
  function giving the reply to each call,
* every member function as a function returning its result together with the
  new track and the new environment.

Handles (`jclass`, `jobject`, `jmethodID`) are natural numbers, `0` being the
null handle.  `int32_t` / `jint` values are integers; the one place where the
source does arithmetic on them (`bufferSizeInBytes`) is reduced modulo `2^32`.
`LOGD` produces log output only and is left out.
-/

namespace oslmp.impl

/-! ## Constants and tables of headers outside this translation unit -/

/-- Constants of `oslmp/impl/AudioFormat.hpp` and `oslmp/impl/AudioTrack.hpp`, and the width
of `size_t`.  Neither header is part of the sources at hand, so every definition takes
the constants as a parameter. -/
structure Consts where
  SUCCESS : Int
  ERROR_INVALID_OPERATION : Int
  ENCODING_INVALID : Int
  ENCODING_PCM_16BIT : Int
  ENCODING_PCM_FLOAT : Int
  CHANNEL_INVALID : Int
  CHANNEL_OUT_MONO : Int
  CHANNEL_OUT_STEREO : Int
  get_sample_size_from_encoding : Int → Nat
  size_t_bits : Nat

/-- A concrete choice of the constants, used for concrete evaluations only: the values of the
Android SDK (`android.media.AudioFormat`, `android.media.AudioTrack`) on a 64-bit ABI, with
sample sizes of 1, 2 and 4 bytes for 8-bit, 16-bit and float PCM (the scenario of the
specification has 16-bit PCM at 2 bytes) and `0` for every other encoding. -/
def androidConsts : Consts where
  SUCCESS := 0
  ERROR_INVALID_OPERATION := -3
  ENCODING_INVALID := 0
  ENCODING_PCM_16BIT := 2
  ENCODING_PCM_FLOAT := 4
  CHANNEL_INVALID := 0
  CHANNEL_OUT_MONO := 4
  CHANNEL_OUT_STEREO := 12
  get_sample_size_from_encoding := fun e =>
    if e = 2 then 2 else if e = 4 then 4 else if e = 3 then 1 else 0
  size_t_bits := 64

/-! ## Machine integers -/

/-- Conversion of an integer to `int32_t` / `jint` (twos complement). -/
def wrap32 (x : Int) : Int := (x + 2 ^ 31) % 2 ^ 32 - 2 ^ 31

/-- Conversion of an integer to `size_t` of the given width. -/
def toSizeT (bits : Nat) (x : Int) : Nat := (x % 2 ^ bits).toNat

/-- Conversion `static_cast<jint>(n)` of a `size_t` value. -/
def sizeToJint (n : Nat) : Int := wrap32 (n : Int)

/-! ## The JNI environment -/

/-- Argument values of a Java method call. -/
inductive JValue where
  | int (v : Int)
  | float (bits : Nat)
  | ref (h : Nat)
deriving DecidableEq, Repr

/-- The JNI functions used by `AudioTrack.cpp` that reach the platform. -/
inductive JniCall where
  | FindClass (name : String)
  | GetMethodID (clazz : Nat) (name : String) (sig : String)
  | NewObject (clazz : Nat) (ctor : Nat) (args : List Int)
  | CallNonvirtualVoidMethod (obj : Nat) (clazz : Nat) (methodID : Nat)
  | CallNonvirtualIntMethod (obj : Nat) (clazz : Nat) (methodID : Nat) (args : List JValue)
  | NewGlobalRef (h : Nat)
  | DeleteGlobalRef (h : Nat)
  | DeleteLocalRef (h : Nat)
deriving DecidableEq, Repr

/-- What the platform answers to one JNI call: a handle (for calls returning a handle),
an integer (for calls returning `jint`), and whether the call raised a Java exception. -/
structure Reply where
  handle : Nat
  value : Int
  throws : Bool
deriving DecidableEq, Repr

/-- State of the JNI environment.  `platform` is the behaviour of the platform: its reply
to a call may depend on everything done before (`history`) and on the pending flag. -/
structure JNIEnv where
  platform : List JniCall → Bool → JniCall → Reply
  history : List JniCall
  pending : Bool

/-- One call into the platform: it is recorded, and an exception it raises becomes pending. -/
def JNIEnv.call (env : JNIEnv) (c : JniCall) : Reply × JNIEnv :=
  let r := env.platform env.history env.pending c
  (r, { env with history := env.history ++ [c], pending := env.pending || r.throws })

def JNIEnv.ExceptionCheck (env : JNIEnv) : Bool := env.pending

def JNIEnv.ExceptionClear (env : JNIEnv) : JNIEnv := { env with pending := false }

def JNIEnv.FindClass (env : JNIEnv) (name : String) : Nat × JNIEnv :=
  let (r, env1) := env.call (JniCall.FindClass name)
  (r.handle, env1)

def JNIEnv.GetMethodID (env : JNIEnv) (clazz : Nat) (name sig : String) : Nat × JNIEnv :=
  let (r, env1) := env.call (JniCall.GetMethodID clazz name sig)
  (r.handle, env1)

def JNIEnv.NewObject (env : JNIEnv) (clazz ctor : Nat) (args : List Int) : Nat × JNIEnv :=
  let (r, env1) := env.call (JniCall.NewObject clazz ctor args)
  (r.handle, env1)

def JNIEnv.CallNonvirtualVoidMethod (env : JNIEnv) (obj clazz methodID : Nat) : JNIEnv :=
  (env.call (JniCall.CallNonvirtualVoidMethod obj clazz methodID)).2

def JNIEnv.CallNonvirtualIntMethod (env : JNIEnv) (obj clazz methodID : Nat)
    (args : List JValue) : Int × JNIEnv :=
  let (r, env1) := env.call (JniCall.CallNonvirtualIntMethod obj clazz methodID args)
  (r.value, env1)

def JNIEnv.NewGlobalRef (env : JNIEnv) (h : Nat) : Nat × JNIEnv :=
  let (r, env1) := env.call (JniCall.NewGlobalRef h)
  (r.handle, env1)

/-- Deleting a reference never raises: it is recorded only. -/
def JNIEnv.DeleteGlobalRef (env : JNIEnv) (h : Nat) : JNIEnv :=
  { env with history := env.history ++ [JniCall.DeleteGlobalRef h] }

def JNIEnv.DeleteLocalRef (env : JNIEnv) (h : Nat) : JNIEnv :=
  { env with history := env.history ++ [JniCall.DeleteLocalRef h] }

/-- Modelled from the spec: the destructor of `jlocal_ref_wrapper` (`jni_utils/jni_utils.hpp`,
not part of the sources).  A wrapper assigned with `local_reference_explicit_delete` discards
the local handle it still holds when it goes out of scope ("discard all local handles and
fail"); a wrapper holding null, or detached, does nothing. -/
def jlocal_ref_wrapper_dtor (env : JNIEnv) (h : Nat) : JNIEnv :=
  if h ≠ 0 then env.DeleteLocalRef h else env

/-- Number of Java method invocations (`CallNonvirtual...Method`) in a list of JNI calls. -/
def invocations : List JniCall → Nat
  | [] => 0
  | JniCall.CallNonvirtualVoidMethod _ _ _ :: cs => invocations cs + 1
  | JniCall.CallNonvirtualIntMethod _ _ _ _ :: cs => invocations cs + 1
  | _ :: cs => invocations cs

/-- Number of object instantiations (`NewObject`) in a list of JNI calls. -/
def instantiations : List JniCall → Nat
  | [] => 0
  | JniCall.NewObject _ _ _ :: cs => instantiations cs + 1
  | _ :: cs => instantiations cs

/-! ## The track -/

/-- Fields of `class AudioTrack`. -/
structure AudioTrack where
  cls_ : Nat
  obj_ : Nat
  m_play_ : Nat
  m_pause_ : Nat
  m_stop_ : Nat
  m_flush_ : Nat
  m_release_ : Nat
  m_get_state_ : Nat
  m_get_play_state_ : Nat
  m_get_audio_session_ : Nat
  m_set_aux_effect_send_level_ : Nat
  m_attach_aux_effect_ : Nat
  m_write_sa_ : Nat
  m_write_fa_ : Nat
  m_write_bb_ : Nat
  audio_format_ : Int
  channel_count_ : Int
  buffer_size_in_frames_ : Int
  buffer_size_in_bytes_ : Int
deriving DecidableEq, Repr

/-- Source: `static jmethodID safeGetMethodId(env, clazz, name, sig)`. -/
def safeGetMethodId (env : JNIEnv) (clazz : Nat) (name sig : String) : Nat × JNIEnv :=
  let (methodId, env1) := env.GetMethodID clazz name sig
  if env1.ExceptionCheck then
    (0, env1.ExceptionClear)
  else
    (methodId, env1)

/-- The constructor `AudioTrack::AudioTrack()`.  Its initialiser list names every field
except `m_set_aux_effect_send_level_` and `m_attach_aux_effect_`; whatever the class
declaration (not part of the sources) leaves in those two is a parameter. -/
def AudioTrack.ctor (K : Consts) (set_aux_effect_send_level0 attach_aux_effect0 : Nat) :
    AudioTrack where
  cls_ := 0
  obj_ := 0
  m_play_ := 0
  m_pause_ := 0
  m_stop_ := 0
  m_flush_ := 0
  m_release_ := 0
  m_get_state_ := 0
  m_get_play_state_ := 0
  m_get_audio_session_ := 0
  m_set_aux_effect_send_level_ := set_aux_effect_send_level0
  m_attach_aux_effect_ := attach_aux_effect0
  m_write_sa_ := 0
  m_write_fa_ := 0
  m_write_bb_ := 0
  audio_format_ := K.ENCODING_INVALID
  channel_count_ := K.CHANNEL_INVALID
  buffer_size_in_frames_ := 0
  buffer_size_in_bytes_ := 0

/-- The arguments of `AudioTrack::create` after `env`. -/
structure CreateArgs where
  stream_type : Int
  sample_rate : Int
  num_channels : Int
  format : Int
  buffer_size_in_frames : Int
  mode : Int
  session_id : Int
deriving DecidableEq, Repr

/-- Source: `jint bufferSizeInBytes = buffer_size_in_frames * num_channels * bytes_per_sample;`
The first product is an `int32_t`, it is converted to `size_t` for the second product,
and the result is converted to `jint`. -/
def bufferSizeInBytes (K : Consts) (a : CreateArgs) : Int :=
  let bytes_per_sample : Nat := K.get_sample_size_from_encoding a.format
  sizeToJint
    ((toSizeT K.size_t_bits (wrap32 (a.buffer_size_in_frames * a.num_channels)) * bytes_per_sample)
      % 2 ^ K.size_t_bits)

/-- What lines 61-83 of `create` leave behind: the class, the object and the environment. -/
structure Instantiated where
  cls : Nat
  obj : Nat
  env : JNIEnv

/-- Lines 61-83 of `AudioTrack::create`: class lookup, constructor lookup, `NewObject`. -/
def create_instantiate (K : Consts) (env : JNIEnv) (a : CreateArgs) : Instantiated :=
  let (cls, env1) := env.FindClass "android/media/AudioTrack"
  let (constructor, env2) := env1.GetMethodID cls "<init>" "(IIIIII)V"
  let channelConfig := if a.num_channels = 2 then K.CHANNEL_OUT_STEREO else K.CHANNEL_OUT_MONO
  let (obj, env3) := env2.NewObject cls constructor
    [a.stream_type, a.sample_rate, channelConfig, a.format, bufferSizeInBytes K a, a.mode]
  { cls := cls, obj := obj, env := env3 }

/-- The thirteen local `jmethodID`s of `AudioTrack::create`. -/
structure EntryPoints where
  m_play : Nat
  m_pause : Nat
  m_stop : Nat
  m_flush : Nat
  m_release : Nat
  m_get_state : Nat
  m_get_play_state : Nat
  m_get_audio_session : Nat
  m_set_aux_effect_send_level : Nat
  m_attach_aux_effect : Nat
  m_write_sa : Nat
  m_write_fa : Nat
  m_write_bb : Nat
deriving DecidableEq, Repr

/-- Lines 89-101 of `AudioTrack::create`: the thirteen method lookups, in source order. -/
def create_resolve (env : JNIEnv) (cls : Nat) : EntryPoints × JNIEnv :=
  let (m_play, e1) := safeGetMethodId env cls "play" "()V"
  let (m_pause, e2) := safeGetMethodId e1 cls "pause" "()V"
  let (m_stop, e3) := safeGetMethodId e2 cls "stop" "()V"
  let (m_flush, e4) := safeGetMethodId e3 cls "flush" "()V"
  let (m_release, e5) := safeGetMethodId e4 cls "release" "()V"
  let (m_get_state, e6) := safeGetMethodId e5 cls "getState" "()I"
  let (m_get_play_state, e7) := safeGetMethodId e6 cls "getPlayState" "()I"
  let (m_get_audio_session, e8) := safeGetMethodId e7 cls "getAudioSessionId" "()I"
  let (m_set_aux_effect_send_level, e9) := safeGetMethodId e8 cls "setAuxEffectSendLevel" "(F)I"
  let (m_attach_aux_effect, e10) := safeGetMethodId e9 cls "attachAuxEffect" "(I)I"
  let (m_write_sa, e11) := safeGetMethodId e10 cls "write" "([SII)I"
  let (m_write_fa, e12) := safeGetMethodId e11 cls "write" "([FIII)I"
  let (m_write_bb, e13) := safeGetMethodId e12 cls "write" "(Ljava/nio/ByteBuffer;II)I"
  ({ m_play := m_play, m_pause := m_pause, m_stop := m_stop, m_flush := m_flush,
     m_release := m_release, m_get_state := m_get_state, m_get_play_state := m_get_play_state,
     m_get_audio_session := m_get_audio_session,
     m_set_aux_effect_send_level := m_set_aux_effect_send_level,
     m_attach_aux_effect := m_attach_aux_effect,
     m_write_sa := m_write_sa, m_write_fa := m_write_fa, m_write_bb := m_write_bb }, e13)

/-- Source: `bool AudioTrack::create(env, stream_type, sample_rate, num_channels, format,
buffer_size_in_frames, mode, session_id)`.  Returns the result, the track and the
environment after the call. -/
def AudioTrack.create (K : Consts) (t : AudioTrack) (env : JNIEnv) (a : CreateArgs) :
    Bool × AudioTrack × JNIEnv :=
  if t.obj_ ≠ 0 then
    (false, t, env)
  else
    let i := create_instantiate K env a
    if i.obj = 0 then
      (false, t, jlocal_ref_wrapper_dtor i.env i.cls)
    else
      let (m, env1) := create_resolve i.env i.cls
      if ¬ (m.m_play ≠ 0 ∧ m.m_pause ≠ 0 ∧ m.m_stop ≠ 0 ∧ m.m_flush ≠ 0 ∧ m.m_release ≠ 0 ∧
            m.m_get_state ≠ 0 ∧ m.m_get_play_state ≠ 0 ∧ m.m_get_audio_session ≠ 0 ∧
            m.m_set_aux_effect_send_level ≠ 0 ∧ m.m_attach_aux_effect ≠ 0 ∧
            (m.m_write_bb ≠ 0 ∨ (m.m_write_sa ≠ 0 ∧ a.format = K.ENCODING_PCM_16BIT) ∨
              (m.m_write_fa ≠ 0 ∧ a.format = K.ENCODING_PCM_FLOAT))) then
        (false, t, jlocal_ref_wrapper_dtor (jlocal_ref_wrapper_dtor env1 i.obj) i.cls)
      else
        let (cls_, env2) := env1.NewGlobalRef i.cls
        let (obj_, env3) := env2.NewGlobalRef i.obj
        (true,
         { cls_ := cls_, obj_ := obj_,
           m_play_ := m.m_play, m_pause_ := m.m_pause, m_stop_ := m.m_stop,
           m_flush_ := m.m_flush, m_release_ := m.m_release,
           m_get_state_ := m.m_get_state, m_get_play_state_ := m.m_get_play_state,
           m_get_audio_session_ := m.m_get_audio_session,
           m_set_aux_effect_send_level_ := m.m_set_aux_effect_send_level,
           m_attach_aux_effect_ := m.m_attach_aux_effect,
           m_write_sa_ := m.m_write_sa, m_write_fa_ := m.m_write_fa,
           m_write_bb_ := m.m_write_bb,
           audio_format_ := a.format, channel_count_ := a.num_channels,
           buffer_size_in_frames_ := a.buffer_size_in_frames,
           buffer_size_in_bytes_ := bufferSizeInBytes K a },
         env3)

/-- Source: `void AudioTrack::release(env)`.  The assignments are those of the source: `m_get_state_`,
`m_set_aux_effect_send_level_` and `m_attach_aux_effect_` are not among them. -/
def AudioTrack.release (K : Consts) (t : AudioTrack) (env : JNIEnv) : AudioTrack × JNIEnv :=
  let env1 :=
    if t.cls_ ≠ 0 ∧ t.obj_ ≠ 0 ∧ t.m_release_ ≠ 0 then
      env.CallNonvirtualVoidMethod t.obj_ t.cls_ t.m_release_
    else env
  let env2 := if t.obj_ ≠ 0 then env1.DeleteGlobalRef t.obj_ else env1
  let env3 := if t.cls_ ≠ 0 then env2.DeleteGlobalRef t.cls_ else env2
  ({ t with
      m_play_ := 0, m_pause_ := 0, m_stop_ := 0, m_flush_ := 0, m_release_ := 0,
      m_get_play_state_ := 0, m_get_audio_session_ := 0,
      m_write_sa_ := 0, m_write_fa_ := 0, m_write_bb_ := 0,
      audio_format_ := K.ENCODING_INVALID, channel_count_ := K.CHANNEL_INVALID,
      obj_ := 0, cls_ := 0,
      buffer_size_in_frames_ := 0, buffer_size_in_bytes_ := 0 },
   env3)

/-! ## Control operations -/

/-- Source: `int32_t AudioTrack::play(env)`. -/
def AudioTrack.play (K : Consts) (t : AudioTrack) (env : JNIEnv) : Int × JNIEnv :=
  if t.m_play_ = 0 then
    (K.ERROR_INVALID_OPERATION, env)
  else if env.ExceptionCheck then
    (K.ERROR_INVALID_OPERATION, env)
  else
    let env1 := env.CallNonvirtualVoidMethod t.obj_ t.cls_ t.m_play_
    if env1.ExceptionCheck then
      (K.ERROR_INVALID_OPERATION, env1.ExceptionClear)
    else
      (K.SUCCESS, env1)

/-- Source: `int32_t AudioTrack::pause(env)`. -/
def AudioTrack.pause (K : Consts) (t : AudioTrack) (env : JNIEnv) : Int × JNIEnv :=
  if t.m_pause_ = 0 then
    (K.ERROR_INVALID_OPERATION, env)
  else if env.ExceptionCheck then
    (K.ERROR_INVALID_OPERATION, env)
  else
    let env1 := env.CallNonvirtualVoidMethod t.obj_ t.cls_ t.m_pause_
    if env1.ExceptionCheck then
      (K.ERROR_INVALID_OPERATION, env1.ExceptionClear)
    else
      (K.SUCCESS, env1)

/-- Source: `int32_t AudioTrack::stop(env)`. -/
def AudioTrack.stop (K : Consts) (t : AudioTrack) (env : JNIEnv) : Int × JNIEnv :=
  if t.m_stop_ = 0 then
    (K.ERROR_INVALID_OPERATION, env)
  else if env.ExceptionCheck then
    (K.ERROR_INVALID_OPERATION, env)
  else
    let env1 := env.CallNonvirtualVoidMethod t.obj_ t.cls_ t.m_stop_
    if env1.ExceptionCheck then
      (K.ERROR_INVALID_OPERATION, env1.ExceptionClear)
    else
      (K.SUCCESS, env1)

/-- Source: `int32_t AudioTrack::flush(env)`. -/
def AudioTrack.flush (K : Consts) (t : AudioTrack) (env : JNIEnv) : Int × JNIEnv :=
  if t.m_flush_ = 0 then
    (K.ERROR_INVALID_OPERATION, env)
  else if env.ExceptionCheck then
    (K.ERROR_INVALID_OPERATION, env)
  else
    let env1 := env.CallNonvirtualVoidMethod t.obj_ t.cls_ t.m_flush_
    if env1.ExceptionCheck then
      (K.ERROR_INVALID_OPERATION, env1.ExceptionClear)
    else
      (K.SUCCESS, env1)

/-! ## Write operations -/

/-- Source: `int32_t AudioTrack::write(env, jshortArray data, size_t offset, size_t size)`. -/
def AudioTrack.write_sa (K : Consts) (t : AudioTrack) (env : JNIEnv)
    (data : Nat) (offset size : Nat) : Int × JNIEnv :=
  if t.m_write_sa_ = 0 then
    (K.ERROR_INVALID_OPERATION, env)
  else if env.ExceptionCheck then
    (K.ERROR_INVALID_OPERATION, env)
  else
    let (result, env1) := env.CallNonvirtualIntMethod t.obj_ t.cls_ t.m_write_sa_
      [JValue.ref data, JValue.int (sizeToJint offset), JValue.int (sizeToJint size)]
    if env1.ExceptionCheck then
      (K.ERROR_INVALID_OPERATION, env1.ExceptionClear)
    else
      (result, env1)

/-- Source: `int32_t AudioTrack::write(env, jfloatArray data, size_t offset, size_t size,
write_mode_t mode)`. -/
def AudioTrack.write_fa (K : Consts) (t : AudioTrack) (env : JNIEnv)
    (data : Nat) (offset size : Nat) (mode : Int) : Int × JNIEnv :=
  if t.m_write_fa_ = 0 then
    (K.ERROR_INVALID_OPERATION, env)
  else if env.ExceptionCheck then
    (K.ERROR_INVALID_OPERATION, env)
  else
    let (result, env1) := env.CallNonvirtualIntMethod t.obj_ t.cls_ t.m_write_fa_
      [JValue.ref data, JValue.int (sizeToJint offset), JValue.int (sizeToJint size),
       JValue.int mode]
    if env1.ExceptionCheck then
      (K.ERROR_INVALID_OPERATION, env1.ExceptionClear)
    else
      (result, env1)

/-- Source: `int32_t AudioTrack::write(env, jobject data, size_t size_in_bytes, write_mode_t mode)`. -/
def AudioTrack.write_bb (K : Consts) (t : AudioTrack) (env : JNIEnv)
    (data : Nat) (size_in_bytes : Nat) (mode : Int) : Int × JNIEnv :=
  if t.m_write_bb_ = 0 then
    (K.ERROR_INVALID_OPERATION, env)
  else if env.ExceptionCheck then
    (K.ERROR_INVALID_OPERATION, env)
  else
    let (result, env1) := env.CallNonvirtualIntMethod t.obj_ t.cls_ t.m_write_bb_
      [JValue.ref data, JValue.int (sizeToJint size_in_bytes), JValue.int mode]
    if env1.ExceptionCheck then
      (K.ERROR_INVALID_OPERATION, env1.ExceptionClear)
    else
      (result, env1)

/-! ## Queries -/

/-- Source: `int32_t AudioTrack::getState(env)`. -/
def AudioTrack.getState (K : Consts) (t : AudioTrack) (env : JNIEnv) : Int × JNIEnv :=
  if t.m_get_state_ = 0 then
    (K.ERROR_INVALID_OPERATION, env)
  else if env.ExceptionCheck then
    (K.ERROR_INVALID_OPERATION, env)
  else
    let (result, env1) := env.CallNonvirtualIntMethod t.obj_ t.cls_ t.m_get_state_ []
    if env1.ExceptionCheck then
      (K.ERROR_INVALID_OPERATION, env1.ExceptionClear)
    else
      (result, env1)

/-- Source: `int32_t AudioTrack::getPlayState(env)`. -/
def AudioTrack.getPlayState (K : Consts) (t : AudioTrack) (env : JNIEnv) : Int × JNIEnv :=
  if t.m_get_play_state_ = 0 then
    (K.ERROR_INVALID_OPERATION, env)
  else if env.ExceptionCheck then
    (K.ERROR_INVALID_OPERATION, env)
  else
    let (result, env1) := env.CallNonvirtualIntMethod t.obj_ t.cls_ t.m_get_play_state_ []
    if env1.ExceptionCheck then
      (K.ERROR_INVALID_OPERATION, env1.ExceptionClear)
    else
      (result, env1)

/-- Source: `int32_t AudioTrack::getAudioSessionId(env)`. -/
def AudioTrack.getAudioSessionId (t : AudioTrack) (env : JNIEnv) : Int × JNIEnv :=
  if t.m_get_audio_session_ = 0 then
    (0, env)
  else if env.ExceptionCheck then
    (0, env)
  else
    let (result, env1) := env.CallNonvirtualIntMethod t.obj_ t.cls_ t.m_get_audio_session_ []
    if env1.ExceptionCheck then
      (0, env1.ExceptionClear)
    else
      (result, env1)

/-- Source: `int32_t AudioTrack::setAuxEffectSendLevel(env, float level)`; the level is carried by
its bit pattern. -/
def AudioTrack.setAuxEffectSendLevel (K : Consts) (t : AudioTrack) (env : JNIEnv)
    (level : Nat) : Int × JNIEnv :=
  if t.m_set_aux_effect_send_level_ = 0 then
    (K.ERROR_INVALID_OPERATION, env)
  else if env.ExceptionCheck then
    (K.ERROR_INVALID_OPERATION, env)
  else
    let (result, env1) :=
      env.CallNonvirtualIntMethod t.obj_ t.cls_ t.m_set_aux_effect_send_level_ [JValue.float level]
    if env1.ExceptionCheck then
      (K.ERROR_INVALID_OPERATION, env1.ExceptionClear)
    else
      (result, env1)

/-- Source: `int32_t AudioTrack::attachAuxEffect(env, int effect_id)`. -/
def AudioTrack.attachAuxEffect (K : Consts) (t : AudioTrack) (env : JNIEnv)
    (effect_id : Int) : Int × JNIEnv :=
  if t.m_attach_aux_effect_ = 0 then
    (K.ERROR_INVALID_OPERATION, env)
  else if env.ExceptionCheck then
    (K.ERROR_INVALID_OPERATION, env)
  else
    let (result, env1) :=
      env.CallNonvirtualIntMethod t.obj_ t.cls_ t.m_attach_aux_effect_ [JValue.int effect_id]
    if env1.ExceptionCheck then
      (K.ERROR_INVALID_OPERATION, env1.ExceptionClear)
    else
      (result, env1)

/-! ## Accessors -/

def AudioTrack.getAudioFormat (t : AudioTrack) : Int := t.audio_format_

def AudioTrack.getBufferSizeInFrames (t : AudioTrack) : Int := t.buffer_size_in_frames_

def AudioTrack.getBufferSizeInBytes (t : AudioTrack) : Int := t.buffer_size_in_bytes_

def AudioTrack.getChannelCount (t : AudioTrack) : Int := t.channel_count_

def AudioTrack.supportsByteBufferMethods (t : AudioTrack) : Bool := t.m_write_bb_ != 0

/-! ## Concrete platforms used in evaluations -/

/-- A platform on which everything exists and nothing raises: handles are `7`, integer
results are `1`. -/
def okPlatform : List JniCall → Bool → JniCall → Reply :=
  fun _ _ _ => { handle := 7, value := 1, throws := false }

/-- A platform like `okPlatform` on which `stop` is missing: looking it up raises
(`NoSuchMethodError`) and yields null. -/
def noStopPlatform : List JniCall → Bool → JniCall → Reply :=
  fun _ _ c =>
    if c = JniCall.GetMethodID 7 "stop" "()V" then { handle := 0, value := 0, throws := true }
    else { handle := 7, value := 1, throws := false }

/-- A platform like `okPlatform` on which every Java method invocation raises. -/
def faultyPlatform : List JniCall → Bool → JniCall → Reply :=
  fun _ _ c =>
    match c with
    | JniCall.CallNonvirtualVoidMethod _ _ _ => { handle := 0, value := 0, throws := true }
    | JniCall.CallNonvirtualIntMethod _ _ _ _ => { handle := 0, value := 5, throws := true }
    | _ => { handle := 7, value := 1, throws := false }

/-- A platform like `okPlatform` on which every `int` method reports the negative platform
error code `-6` (dead object) without raising. -/
def errorCodePlatform : List JniCall → Bool → JniCall → Reply :=
  fun _ _ c =>
    match c with
    | JniCall.CallNonvirtualIntMethod _ _ _ _ => { handle := 0, value := -6, throws := false }
    | _ => { handle := 7, value := 1, throws := false }

/-- A fresh environment over a platform: nothing done yet, nothing pending. -/
def JNIEnv.fresh (p : List JniCall → Bool → JniCall → Reply) : JNIEnv :=
  { platform := p, history := [], pending := false }

/-- The scenario of the specification: `create(MUSIC = 3, 44100, 2, PCM_16BIT, 1024,
MODE_STREAM = 1, 0)`. -/
def scenarioArgs : CreateArgs :=
  { stream_type := 3, sample_rate := 44100, num_channels := 2, format := 2,
    buffer_size_in_frames := 1024, mode := 1, session_id := 0 }

/-- A freshly constructed track whose two fields outside the initialiser list are null. -/
def freshTrack : AudioTrack := AudioTrack.ctor androidConsts 0 0

/-- Arguments at which the byte size does not fit a `jint`: `2^30 + 256` frames, mono,
float PCM, that is `4294968320` bytes. -/
def overflowArgs : CreateArgs :=
  { stream_type := 3, sample_rate := 44100, num_channels := 1, format := 4,
    buffer_size_in_frames := 1073742080, mode := 1, session_id := 0 }

/-- Arguments with an encoding the sample-size table does not know (`99`). -/
def unsupportedArgs : CreateArgs :=
  { stream_type := 3, sample_rate := 44100, num_channels := 2, format := 99,
    buffer_size_in_frames := 1024, mode := 1, session_id := 0 }

/-- The track obtained by the `create` of the scenario on `okPlatform`. -/
def createdTrack : AudioTrack :=
  (AudioTrack.create androidConsts freshTrack (JNIEnv.fresh okPlatform) scenarioArgs).2.1

/-- The environment after the `create` of the scenario on `okPlatform`. -/
def createdEnv : JNIEnv :=
  (AudioTrack.create androidConsts freshTrack (JNIEnv.fresh okPlatform) scenarioArgs).2.2

/-- The track after `create` then `release` on `okPlatform`. -/
def releasedTrack : AudioTrack :=
  (AudioTrack.release androidConsts createdTrack createdEnv).1

/-- The environment after `create` then `release` on `okPlatform`. -/
def releasedEnv : JNIEnv :=
  (AudioTrack.release androidConsts createdTrack createdEnv).2

/-! ## Vocabulary of the specification -/

/-- The reply of the platform to the call `c` made in the environment `env`. -/
def JNIEnv.reply (env : JNIEnv) (c : JniCall) : Reply := env.platform env.history env.pending c

/-- The method identifiers that the lookups of `create` yield when it is called in `env`. -/
def create_entryPoints (K : Consts) (env : JNIEnv) (a : CreateArgs) : EntryPoints :=
  (create_resolve (create_instantiate K env a).env (create_instantiate K env a).cls).1

/-- In the words of the specification: every control entry point (play, pause, stop, flush,
release, get-state, get-play-state, get-session-id, set-aux-send-level, attach-aux-effect)
is present. -/
def EntryPoints.controlsResolved (m : EntryPoints) : Prop :=
  m.m_play ≠ 0 ∧ m.m_pause ≠ 0 ∧ m.m_stop ≠ 0 ∧ m.m_flush ≠ 0 ∧ m.m_release ≠ 0 ∧
  m.m_get_state ≠ 0 ∧ m.m_get_play_state ≠ 0 ∧ m.m_get_audio_session ≠ 0 ∧
  m.m_set_aux_effect_send_level ≠ 0 ∧ m.m_attach_aux_effect ≠ 0

instance (m : EntryPoints) : Decidable m.controlsResolved := by
  unfold EntryPoints.controlsResolved
  infer_instance

/-- In the words of the specification: at least one compatible data-write entry point is
present; the byte-buffer path is always acceptable, the short-array path only if the format
is 16-bit PCM, the float-array path only if the format is floating-point PCM. -/
def EntryPoints.writeCompatible (K : Consts) (m : EntryPoints) (format : Int) : Prop :=
  m.m_write_bb ≠ 0 ∨ (m.m_write_sa ≠ 0 ∧ format = K.ENCODING_PCM_16BIT) ∨
    (m.m_write_fa ≠ 0 ∧ format = K.ENCODING_PCM_FLOAT)

instance (K : Consts) (m : EntryPoints) (format : Int) :
    Decidable (m.writeCompatible K format) := by
  unfold EntryPoints.writeCompatible
  infer_instance

/-- The four control operations. -/
inductive ControlOp where
  | play
  | pause
  | stop
  | flush
deriving DecidableEq, Repr

/-- The member function behind a control operation. -/
def ControlOp.run (K : Consts) : ControlOp → AudioTrack → JNIEnv → Int × JNIEnv
  | ControlOp.play, t, env => t.play K env
  | ControlOp.pause, t, env => t.pause K env
  | ControlOp.stop, t, env => t.stop K env
  | ControlOp.flush, t, env => t.flush K env

/-- The cached entry point a control operation uses. -/
def ControlOp.entryPoint : ControlOp → AudioTrack → Nat
  | ControlOp.play, t => t.m_play_
  | ControlOp.pause, t => t.m_pause_
  | ControlOp.stop, t => t.m_stop_
  | ControlOp.flush, t => t.m_flush_

/-- In the words of the specification, the one algorithm of the control operations: check
that the entry point is resolved and that no fault is pending, else report "invalid
operation" without invoking anything; otherwise invoke the entry point; if the call raises
a fault, clear it and report "invalid operation"; otherwise report success. -/
def controlAlgorithm (K : Consts) (obj cls entryPoint : Nat) (env : JNIEnv) : Int × JNIEnv :=
  if entryPoint = 0 ∨ env.pending = true then
    (K.ERROR_INVALID_OPERATION, env)
  else
    let r := env.call (JniCall.CallNonvirtualVoidMethod obj cls entryPoint)
    if r.1.throws then (K.ERROR_INVALID_OPERATION, r.2.ExceptionClear) else (K.SUCCESS, r.2)

/-- A call of one of the three write variants, with its arguments. -/
inductive WriteCall where
  | shortArray (data : Nat) (offset : Nat) (size : Nat)
  | floatArray (data : Nat) (offset : Nat) (size : Nat) (mode : Int)
  | byteBuffer (data : Nat) (size_in_bytes : Nat) (mode : Int)
deriving DecidableEq, Repr

/-- The member function behind a write call. -/
def WriteCall.run (K : Consts) : WriteCall → AudioTrack → JNIEnv → Int × JNIEnv
  | WriteCall.shortArray data offset size, t, env => t.write_sa K env data offset size
  | WriteCall.floatArray data offset size mode, t, env => t.write_fa K env data offset size mode
  | WriteCall.byteBuffer data size_in_bytes mode, t, env => t.write_bb K env data size_in_bytes mode

/-- The cached entry point a write call uses. -/
def WriteCall.entryPoint : WriteCall → AudioTrack → Nat
  | WriteCall.shortArray _ _ _, t => t.m_write_sa_
  | WriteCall.floatArray _ _ _ _, t => t.m_write_fa_
  | WriteCall.byteBuffer _ _ _, t => t.m_write_bb_

/-- The Java arguments a write call passes. -/
def WriteCall.javaArgs : WriteCall → List JValue
  | WriteCall.shortArray data offset size =>
      [JValue.ref data, JValue.int (sizeToJint offset), JValue.int (sizeToJint size)]
  | WriteCall.floatArray data offset size mode =>
      [JValue.ref data, JValue.int (sizeToJint offset), JValue.int (sizeToJint size),
       JValue.int mode]
  | WriteCall.byteBuffer data size_in_bytes mode =>
      [JValue.ref data, JValue.int (sizeToJint size_in_bytes), JValue.int mode]

/-! ## Machine integer lemmas -/

theorem wrap32_modEq (x : Int) : wrap32 x ≡ x [ZMOD 2 ^ 32] := by
  unfold wrap32 Int.ModEq
  omega

theorem wrap32_range (x : Int) : -2 ^ 31 ≤ wrap32 x ∧ wrap32 x < 2 ^ 31 := by
  unfold wrap32
  omega

theorem wrap32_of_range (x : Int) (h1 : -2 ^ 31 ≤ x) (h2 : x < 2 ^ 31) : wrap32 x = x := by
  unfold wrap32
  omega

theorem wrap32_congr (x y : Int) (h : x ≡ y [ZMOD 2 ^ 32]) : wrap32 x = wrap32 y := by
  unfold wrap32
  unfold Int.ModEq at h
  omega

theorem toSizeT_modEq (w : Nat) (hw : 32 ≤ w) (x : Int) :
    ((toSizeT w x : Nat) : Int) ≡ x [ZMOD 2 ^ 32] := by
  unfold toSizeT
  have hpos : (0 : Int) < 2 ^ w := by positivity
  have h0 : 0 ≤ x % 2 ^ w := Int.emod_nonneg _ (ne_of_gt hpos)
  rw [Int.toNat_of_nonneg h0]
  have hd : ((2 : Int) ^ 32) ∣ 2 ^ w := pow_dvd_pow 2 hw
  exact (Int.ModEq.of_dvd hd (Int.mod_modEq x (2 ^ w)))

theorem bufferSizeInBytes_eq (K : Consts) (a : CreateArgs) (hw : 32 ≤ K.size_t_bits) :
    bufferSizeInBytes K a =
      wrap32 (a.buffer_size_in_frames * a.num_channels *
        (K.get_sample_size_from_encoding a.format : Int)) := by
  unfold bufferSizeInBytes sizeToJint
  apply wrap32_congr
  have hd : ((2 : Int) ^ 32) ∣ 2 ^ K.size_t_bits := pow_dvd_pow 2 hw
  have h1 := toSizeT_modEq K.size_t_bits hw (wrap32 (a.buffer_size_in_frames * a.num_channels))
  have h2 := h1.trans (wrap32_modEq (a.buffer_size_in_frames * a.num_channels))
  have h3 : (((toSizeT K.size_t_bits (wrap32 (a.buffer_size_in_frames * a.num_channels)) *
      K.get_sample_size_from_encoding a.format % 2 ^ K.size_t_bits : Nat) : Int))
      ≡ ((toSizeT K.size_t_bits (wrap32 (a.buffer_size_in_frames * a.num_channels)) : Nat) : Int) *
        (K.get_sample_size_from_encoding a.format : Int) [ZMOD 2 ^ 32] := by
    push_cast
    exact Int.ModEq.of_dvd hd (Int.mod_modEq _ _)
  exact h3.trans (h2.mul_right _)

/-! ## Lemmas on `create` -/

theorem create_of_created (K : Consts) (t : AudioTrack) (env : JNIEnv) (a : CreateArgs)
    (hc : t.obj_ ≠ 0) : AudioTrack.create K t env a = (false, t, env) := by
  unfold AudioTrack.create
  rw [if_pos hc]

theorem create_track_of_failure (K : Consts) (t : AudioTrack) (env : JNIEnv) (a : CreateArgs)
    (hf : (AudioTrack.create K t env a).1 = false) : (AudioTrack.create K t env a).2.1 = t := by
  unfold AudioTrack.create at hf ⊢
  by_cases h1 : t.obj_ ≠ 0
  · rw [if_pos h1]
  · rw [if_neg h1] at hf ⊢
    dsimp only at hf ⊢
    by_cases h2 : (create_instantiate K env a).obj = 0
    · rw [if_pos h2]
    · rw [if_neg h2] at hf ⊢
      split_ifs at hf ⊢ with h3
      rfl

theorem create_result_iff (K : Consts) (t : AudioTrack) (env : JNIEnv) (a : CreateArgs)
    (hu : t.obj_ = 0) :
    (AudioTrack.create K t env a).1 = true ↔
      ((create_instantiate K env a).obj ≠ 0 ∧ (create_entryPoints K env a).controlsResolved ∧
        (create_entryPoints K env a).writeCompatible K a.format) := by
  unfold AudioTrack.create create_entryPoints EntryPoints.controlsResolved
    EntryPoints.writeCompatible
  rw [if_neg (not_not.mpr hu)]
  dsimp only
  by_cases h2 : (create_instantiate K env a).obj = 0
  · rw [if_pos h2]
    simp [h2]
  · rw [if_neg h2]
    split_ifs with h3
    · simp only [true_iff]
      exact ⟨h2, ⟨h3.1, h3.2.1, h3.2.2.1, h3.2.2.2.1, h3.2.2.2.2.1, h3.2.2.2.2.2.1,
        h3.2.2.2.2.2.2.1, h3.2.2.2.2.2.2.2.1, h3.2.2.2.2.2.2.2.2.1,
        h3.2.2.2.2.2.2.2.2.2.1⟩, h3.2.2.2.2.2.2.2.2.2.2⟩
    · simp only [Bool.false_eq_true, false_iff]
      intro hh
      exact h3 ⟨hh.2.1.1, hh.2.1.2.1, hh.2.1.2.2.1, hh.2.1.2.2.2.1, hh.2.1.2.2.2.2.1,
        hh.2.1.2.2.2.2.2.1, hh.2.1.2.2.2.2.2.2.1, hh.2.1.2.2.2.2.2.2.2.1,
        hh.2.1.2.2.2.2.2.2.2.2.1, hh.2.1.2.2.2.2.2.2.2.2.2, hh.2.2⟩

theorem call_history (env : JNIEnv) (c : JniCall) :
    (env.call c).2.history = env.history ++ [c] := rfl

theorem safeGetMethodId_history (env : JNIEnv) (clazz : Nat) (name sig : String) :
    (safeGetMethodId env clazz name sig).2.history =
      env.history ++ [JniCall.GetMethodID clazz name sig] := by
  unfold safeGetMethodId JNIEnv.GetMethodID
  dsimp only
  split_ifs <;> rfl

theorem instantiations_append (l1 l2 : List JniCall) :
    instantiations (l1 ++ l2) = instantiations l1 + instantiations l2 := by
  induction l1 with
  | nil => simp [instantiations]
  | cons c cs ih =>
    cases c <;> simp [instantiations, ih]
    omega

theorem create_resolve_history (env : JNIEnv) (cls : Nat) :
    ∃ rest, (create_resolve env cls).2.history = env.history ++ rest ∧
      instantiations rest = 0 := by
  unfold create_resolve
  dsimp only
  simp only [safeGetMethodId_history, List.append_assoc]
  exact ⟨_, rfl, by simp [instantiations]⟩

theorem dtor_history (env : JNIEnv) (h : Nat) :
    ∃ rest, (jlocal_ref_wrapper_dtor env h).history = env.history ++ rest ∧
      instantiations rest = 0 := by
  unfold jlocal_ref_wrapper_dtor JNIEnv.DeleteLocalRef
  split_ifs
  · exact ⟨_, rfl, by simp [instantiations]⟩
  · exact ⟨[], by simp, by simp [instantiations]⟩

theorem create_instantiate_history (K : Consts) (env : JNIEnv) (a : CreateArgs) :
    ∃ cls ctor cfg, (create_instantiate K env a).env.history = env.history ++
      [JniCall.FindClass "android/media/AudioTrack", JniCall.GetMethodID cls "<init>" "(IIIIII)V",
       JniCall.NewObject cls ctor
         [a.stream_type, a.sample_rate, cfg, a.format, bufferSizeInBytes K a, a.mode]] := by
  unfold create_instantiate JNIEnv.FindClass JNIEnv.GetMethodID JNIEnv.NewObject
  dsimp only
  simp only [call_history, List.append_assoc]
  exact ⟨_, _, _, rfl⟩

theorem create_history (K : Consts) (t : AudioTrack) (env : JNIEnv) (a : CreateArgs)
    (hu : t.obj_ = 0) :
    ∃ rest, (AudioTrack.create K t env a).2.2.history =
      (create_instantiate K env a).env.history ++ rest ∧ instantiations rest = 0 := by
  unfold AudioTrack.create
  rw [if_neg (not_not.mpr hu)]
  dsimp only
  by_cases h2 : (create_instantiate K env a).obj = 0
  · rw [if_pos h2]
    exact dtor_history _ _
  · rw [if_neg h2]
    obtain ⟨r1, hr1, hi1⟩ :=
      create_resolve_history (create_instantiate K env a).env (create_instantiate K env a).cls
    split_ifs with h3
    · refine ⟨r1 ++ [JniCall.NewGlobalRef (create_instantiate K env a).cls,
        JniCall.NewGlobalRef (create_instantiate K env a).obj], ?_, ?_⟩
      · simp only [JNIEnv.NewGlobalRef, call_history, hr1, List.append_assoc]
        rfl
      · simp [instantiations_append, hi1, instantiations]
    · obtain ⟨r2, hr2, hi2⟩ := dtor_history
        (create_resolve (create_instantiate K env a).env (create_instantiate K env a).cls).2
        (create_instantiate K env a).obj
      obtain ⟨r3, hr3, hi3⟩ := dtor_history
        (jlocal_ref_wrapper_dtor
          (create_resolve (create_instantiate K env a).env (create_instantiate K env a).cls).2
          (create_instantiate K env a).obj) (create_instantiate K env a).cls
      refine ⟨r1 ++ (r2 ++ r3), ?_, ?_⟩
      · simp only [hr3, hr2, hr1, List.append_assoc]
      · simp [instantiations_append, hi1, hi2, hi3]

theorem bufferSizeInBytes_unsupported (K : Consts) (a : CreateArgs)
    (hf : K.get_sample_size_from_encoding a.format = 0) : bufferSizeInBytes K a = 0 := by
  unfold bufferSizeInBytes sizeToJint wrap32
  simp [hf]

theorem create_fields_of_success (K : Consts) (t : AudioTrack) (env : JNIEnv) (a : CreateArgs)
    (hs : (AudioTrack.create K t env a).1 = true) :
    (AudioTrack.create K t env a).2.1.audio_format_ = a.format ∧
    (AudioTrack.create K t env a).2.1.channel_count_ = a.num_channels ∧
    (AudioTrack.create K t env a).2.1.buffer_size_in_frames_ = a.buffer_size_in_frames ∧
    (AudioTrack.create K t env a).2.1.buffer_size_in_bytes_ = bufferSizeInBytes K a := by
  unfold AudioTrack.create at hs ⊢
  by_cases h1 : t.obj_ ≠ 0
  · rw [if_pos h1] at hs
    exact absurd hs (by simp)
  · rw [if_neg h1] at hs ⊢
    dsimp only at hs ⊢
    by_cases h2 : (create_instantiate K env a).obj = 0
    · rw [if_pos h2] at hs
      exact absurd hs (by simp)
    · rw [if_neg h2] at hs ⊢
      split_ifs at hs ⊢ with h3
      exact ⟨rfl, rfl, rfl, rfl⟩

/-! ## Lemmas on the invoking operations -/

theorem voidOp_eq (K : Consts) (obj cls m : Nat) (env : JNIEnv) :
    (if m = 0 then (K.ERROR_INVALID_OPERATION, env)
     else if env.ExceptionCheck then (K.ERROR_INVALID_OPERATION, env)
     else
       let env1 := env.CallNonvirtualVoidMethod obj cls m
       if env1.ExceptionCheck then (K.ERROR_INVALID_OPERATION, env1.ExceptionClear)
       else (K.SUCCESS, env1)) = controlAlgorithm K obj cls m env := by
  unfold controlAlgorithm JNIEnv.ExceptionCheck JNIEnv.CallNonvirtualVoidMethod JNIEnv.call
    JNIEnv.ExceptionClear
  by_cases hm : m = 0
  · simp [hm]
  · by_cases hp : env.pending = true
    · simp [hm, hp]
    · simp [hm, hp]

theorem controlOp_run_eq (K : Consts) (op : ControlOp) (t : AudioTrack) (env : JNIEnv) :
    op.run K t env = controlAlgorithm K t.obj_ t.cls_ (op.entryPoint t) env := by
  cases op
  · exact voidOp_eq K t.obj_ t.cls_ t.m_play_ env
  · exact voidOp_eq K t.obj_ t.cls_ t.m_pause_ env
  · exact voidOp_eq K t.obj_ t.cls_ t.m_stop_ env
  · exact voidOp_eq K t.obj_ t.cls_ t.m_flush_ env

/-- The shape shared by the operations that invoke an `int` method: unresolved or pending
gives the failure value untouched; otherwise one invocation, the fault cleared. -/
theorem intOp_contract (fail : Int) (obj cls m : Nat) (args : List JValue) (env : JNIEnv)
    (out : Int × JNIEnv)
    (hout : out =
      if m = 0 then (fail, env)
      else if env.ExceptionCheck then (fail, env)
      else
        let (result, env1) := env.CallNonvirtualIntMethod obj cls m args
        if env1.ExceptionCheck then (fail, env1.ExceptionClear) else (result, env1)) :
    ((m = 0 ∨ env.pending = true) → out = (fail, env)) ∧
    ((m ≠ 0 ∧ env.pending = false) →
      out.2.history = env.history ++ [JniCall.CallNonvirtualIntMethod obj cls m args] ∧
      out.2.pending = false ∧
      ((env.reply (JniCall.CallNonvirtualIntMethod obj cls m args)).throws = false →
        out.1 = (env.reply (JniCall.CallNonvirtualIntMethod obj cls m args)).value) ∧
      ((env.reply (JniCall.CallNonvirtualIntMethod obj cls m args)).throws = true →
        out.1 = fail)) := by
  subst hout
  unfold JNIEnv.ExceptionCheck JNIEnv.CallNonvirtualIntMethod JNIEnv.call JNIEnv.ExceptionClear
    JNIEnv.reply
  constructor
  · rintro (hm | hp)
    · simp [hm]
    · by_cases hm : m = 0
      · simp [hm]
      · simp [hm, hp]
  · rintro ⟨hm, hp⟩
    by_cases ht : (env.platform env.history false
        (JniCall.CallNonvirtualIntMethod obj cls m args)).throws = true
    · simp [hm, hp, ht]
    · simp [hm, hp, ht]

/-! ## The claims -/

/-- C1, as stated, fails: on a platform that accepts everything, creating a fresh track with
float PCM, one channel and `2^30 + 256` frames succeeds, and `getBufferSizeInBytes` then
returns `1024`, not `frames × channels × bytes-per-sample = 4294968320`. -/
theorem create_bufferSizeInBytes_overflow :
    freshTrack.obj_ = 0 ∧
    overflowArgs.format = androidConsts.ENCODING_PCM_FLOAT ∧ overflowArgs.num_channels = 1 ∧
    (AudioTrack.create androidConsts freshTrack (JNIEnv.fresh okPlatform) overflowArgs).1 = true ∧
    (AudioTrack.create androidConsts freshTrack (JNIEnv.fresh okPlatform)
      overflowArgs).2.1.getBufferSizeInBytes = 1024 ∧
    overflowArgs.buffer_size_in_frames * overflowArgs.num_channels *
      (androidConsts.get_sample_size_from_encoding overflowArgs.format : Int) = 4294968320 ∧
    (AudioTrack.create androidConsts freshTrack (JNIEnv.fresh okPlatform)
      overflowArgs).2.1.getBufferSizeInBytes ≠
        overflowArgs.buffer_size_in_frames * overflowArgs.num_channels *
          (androidConsts.get_sample_size_from_encoding overflowArgs.format : Int) := by
  decide

/-- C1, amended: whenever `create` returns success (`size_t` being at least 32 bits wide),
`getAudioFormat`, `getChannelCount` and `getBufferSizeInFrames` return the requested format,
channel count and frame count, and `getBufferSizeInBytes` returns
`frames × channels × bytes-per-sample(format)` reduced to a signed 32-bit integer, which is
the exact product whenever that product lies in `-2^31 .. 2^31 - 1`.  This holds for every
track and every argument tuple, so in particular for an uncreated track, a valid format and
one or two channels. -/
theorem create_then_accessors (K : Consts) (t : AudioTrack) (env : JNIEnv) (a : CreateArgs)
    (hw : 32 ≤ K.size_t_bits) (hs : (AudioTrack.create K t env a).1 = true) :
    (AudioTrack.create K t env a).2.1.getAudioFormat = a.format ∧
    (AudioTrack.create K t env a).2.1.getChannelCount = a.num_channels ∧
    (AudioTrack.create K t env a).2.1.getBufferSizeInFrames = a.buffer_size_in_frames ∧
    (AudioTrack.create K t env a).2.1.getBufferSizeInBytes =
      wrap32 (a.buffer_size_in_frames * a.num_channels *
        (K.get_sample_size_from_encoding a.format : Int)) ∧
    ((-2 ^ 31 ≤ a.buffer_size_in_frames * a.num_channels *
          (K.get_sample_size_from_encoding a.format : Int) ∧
      a.buffer_size_in_frames * a.num_channels *
          (K.get_sample_size_from_encoding a.format : Int) < 2 ^ 31) →
      (AudioTrack.create K t env a).2.1.getBufferSizeInBytes =
        a.buffer_size_in_frames * a.num_channels *
          (K.get_sample_size_from_encoding a.format : Int)) := by
  obtain ⟨h1, h2, h3, h4⟩ := create_fields_of_success K t env a hs
  unfold AudioTrack.getAudioFormat AudioTrack.getChannelCount AudioTrack.getBufferSizeInFrames
    AudioTrack.getBufferSizeInBytes
  rw [h1, h2, h3, h4, bufferSizeInBytes_eq K a hw]
  exact ⟨rfl, rfl, rfl, rfl, fun hr => wrap32_of_range _ hr.1 hr.2⟩

/-- Witness of `create_then_accessors`: the scenario of the specification (1024 frames,
stereo, 16-bit PCM) gives 4096 bytes. -/
theorem create_then_accessors_witness :
    (AudioTrack.create androidConsts freshTrack (JNIEnv.fresh okPlatform) scenarioArgs).1 = true ∧
    (AudioTrack.create androidConsts freshTrack (JNIEnv.fresh okPlatform)
      scenarioArgs).2.1.getBufferSizeInBytes = 4096 :=
  ⟨by decide,
   (create_then_accessors androidConsts freshTrack (JNIEnv.fresh okPlatform) scenarioArgs
      (by decide) (by decide)).2.2.2.2 (by decide)⟩

/-- C2: on an uncreated track, a `create` call that returns failure leaves the track exactly
as it was, and still uncreated; and `create` does return failure when the instantiation
yields null, when a control entry point (such as `stop`) is unresolved, and when no
compatible write entry point is resolved. -/
theorem create_failure_retains_nothing (K : Consts) (t : AudioTrack) (env : JNIEnv)
    (a : CreateArgs) (hu : t.obj_ = 0) :
    ((AudioTrack.create K t env a).1 = false →
      (AudioTrack.create K t env a).2.1 = t ∧ (AudioTrack.create K t env a).2.1.obj_ = 0) ∧
    ((create_instantiate K env a).obj = 0 → (AudioTrack.create K t env a).1 = false) ∧
    (¬ (create_entryPoints K env a).controlsResolved → (AudioTrack.create K t env a).1 = false) ∧
    ((create_entryPoints K env a).m_stop = 0 → (AudioTrack.create K t env a).1 = false) ∧
    (¬ (create_entryPoints K env a).writeCompatible K a.format →
      (AudioTrack.create K t env a).1 = false) := by
  have hiff := create_result_iff K t env a hu
  refine ⟨?_, ?_, ?_, ?_, ?_⟩
  · intro hf
    have ht := create_track_of_failure K t env a hf
    exact ⟨ht, by rw [ht]; exact hu⟩
  · intro h0
    cases hb : (AudioTrack.create K t env a).1
    · rfl
    · exact absurd h0 (hiff.mp hb).1
  · intro hn
    cases hb : (AudioTrack.create K t env a).1
    · rfl
    · exact absurd (hiff.mp hb).2.1 hn
  · intro h0
    cases hb : (AudioTrack.create K t env a).1
    · rfl
    · exact absurd h0 (hiff.mp hb).2.1.2.2.1
  · intro hn
    cases hb : (AudioTrack.create K t env a).1
    · rfl
    · exact absurd (hiff.mp hb).2.2 hn

/-- Witness of `create_failure_retains_nothing`: on a platform without `stop`, `create` on a
fresh track fails and the track is the fresh track. -/
theorem create_failure_retains_nothing_witness :
    freshTrack.obj_ = 0 ∧
    (create_entryPoints androidConsts (JNIEnv.fresh noStopPlatform) scenarioArgs).m_stop = 0 ∧
    (AudioTrack.create androidConsts freshTrack (JNIEnv.fresh noStopPlatform) scenarioArgs).1
      = false ∧
    (AudioTrack.create androidConsts freshTrack (JNIEnv.fresh noStopPlatform) scenarioArgs).2.1
      = freshTrack :=
  ⟨by decide, by decide,
   (create_failure_retains_nothing androidConsts freshTrack (JNIEnv.fresh noStopPlatform)
      scenarioArgs (by decide)).2.2.2.1 (by decide),
   ((create_failure_retains_nothing androidConsts freshTrack (JNIEnv.fresh noStopPlatform)
      scenarioArgs (by decide)).1 (by decide)).1⟩

/-- C3: on a created track (endpoint object non-null) `create` returns failure and gives
back the track and the environment it was given: no field changes, and no JNI call of any
kind is made. -/
theorem create_on_created_rejected (K : Consts) (t : AudioTrack) (env : JNIEnv)
    (a : CreateArgs) (hc : t.obj_ ≠ 0) :
    AudioTrack.create K t env a = (false, t, env) ∧
    (AudioTrack.create K t env a).2.2.history = env.history := by
  rw [create_of_created K t env a hc]
  exact ⟨rfl, rfl⟩

/-- Witness of `create_on_created_rejected`: a second `create` on the track of the
scenario. -/
theorem create_on_created_rejected_witness :
    createdTrack.obj_ ≠ 0 ∧
    (AudioTrack.create androidConsts createdTrack createdEnv overflowArgs).1 = false ∧
    (AudioTrack.create androidConsts createdTrack createdEnv overflowArgs).2.1 = createdTrack :=
  ⟨by decide,
   congrArg Prod.fst
     (create_on_created_rejected androidConsts createdTrack createdEnv overflowArgs
       (by decide)).1,
   congrArg (fun r => r.2.1)
     (create_on_created_rejected androidConsts createdTrack createdEnv overflowArgs
       (by decide)).1⟩


/-- C4, evaluated on the code: after a successful `create` and a `release` (the track is
released, no fault pending), `getState`, `setAuxEffectSendLevel` and `attachAuxEffect` do
not return `ERROR_INVALID_OPERATION`; each performs one platform method invocation on the
null object through the entry point that `release` left in place, and returns the
platform result. -/
theorem released_track_still_invokes :
    releasedTrack.obj_ = 0 ∧ releasedTrack.cls_ = 0 ∧ releasedEnv.pending = false ∧
    (AudioTrack.getState androidConsts releasedTrack releasedEnv).1 = 1 ∧
    (AudioTrack.getState androidConsts releasedTrack releasedEnv).1
      ≠ androidConsts.ERROR_INVALID_OPERATION ∧
    (AudioTrack.getState androidConsts releasedTrack releasedEnv).2.history =
      releasedEnv.history ++ [JniCall.CallNonvirtualIntMethod 0 0 7 []] ∧
    (AudioTrack.setAuxEffectSendLevel androidConsts releasedTrack releasedEnv 0).2.history =
      releasedEnv.history ++ [JniCall.CallNonvirtualIntMethod 0 0 7 [JValue.float 0]] ∧
    (AudioTrack.attachAuxEffect androidConsts releasedTrack releasedEnv 0).2.history =
      releasedEnv.history ++ [JniCall.CallNonvirtualIntMethod 0 0 7 [JValue.int 0]] ∧
    invocations (AudioTrack.getState androidConsts releasedTrack releasedEnv).2.history =
      invocations releasedEnv.history + 1 := by
  decide

/-- C5, evaluated on the code: after a successful `create`, `release` leaves the entry
points `m_get_state_`, `m_set_aux_effect_send_level_` and `m_attach_aux_effect_` at the
values `create` resolved (here `7`), not at the unavailable marker `0`; the released track
is not the default track, also after a second `release`. -/
theorem release_leaves_entry_points :
    createdTrack.m_get_state_ = 7 ∧
    releasedTrack.m_get_state_ = 7 ∧
    releasedTrack.m_set_aux_effect_send_level_ = 7 ∧
    releasedTrack.m_attach_aux_effect_ = 7 ∧
    releasedTrack ≠ AudioTrack.ctor androidConsts 0 0 ∧
    (AudioTrack.release androidConsts releasedTrack releasedEnv).1.m_get_state_ = 7 := by
  decide

/-- C6, as stated, fails: with an encoding unknown to the sample-size table (`99`, sample
size `0`), `create` on a fresh track makes the constructor call and, on a platform that
accepts it, returns success. -/
theorem unsupported_format_create_succeeds :
    freshTrack.obj_ = 0 ∧
    androidConsts.get_sample_size_from_encoding unsupportedArgs.format = 0 ∧
    (AudioTrack.create androidConsts freshTrack (JNIEnv.fresh okPlatform) unsupportedArgs).1
      = true ∧
    instantiations
      (AudioTrack.create androidConsts freshTrack (JNIEnv.fresh okPlatform)
        unsupportedArgs).2.2.history = 1 ∧
    JniCall.NewObject 7 7 [3, 44100, 12, 99, 0, 1] ∈
      (AudioTrack.create androidConsts freshTrack (JNIEnv.fresh okPlatform)
        unsupportedArgs).2.2.history := by
  decide

/-- C6, amended: on an uncreated track, `create` with an unsupported format (sample size
`0`) does not fail ahead of the instantiation.  It looks up the class and the constructor,
makes exactly one constructor call, passing `0` as the buffer size in bytes, and its result
is decided afterwards: success exactly when the instantiation yields a non-null object,
every control entry point is resolved and a compatible write entry point is resolved. -/
theorem create_unsupported_format (K : Consts) (t : AudioTrack) (env : JNIEnv)
    (a : CreateArgs) (hu : t.obj_ = 0)
    (hf : K.get_sample_size_from_encoding a.format = 0) :
    (∃ cls ctor cfg rest,
      (AudioTrack.create K t env a).2.2.history = env.history ++
        (JniCall.FindClass "android/media/AudioTrack" ::
         JniCall.GetMethodID cls "<init>" "(IIIIII)V" ::
         JniCall.NewObject cls ctor [a.stream_type, a.sample_rate, cfg, a.format, 0, a.mode] ::
         rest) ∧
      instantiations rest = 0) ∧
    instantiations (AudioTrack.create K t env a).2.2.history = instantiations env.history + 1 ∧
    ((AudioTrack.create K t env a).1 = true ↔
      ((create_instantiate K env a).obj ≠ 0 ∧ (create_entryPoints K env a).controlsResolved ∧
        (create_entryPoints K env a).writeCompatible K a.format)) := by
  obtain ⟨cls, ctor, cfg, hi⟩ := create_instantiate_history K env a
  obtain ⟨rest, hr, hn⟩ := create_history K t env a hu
  rw [bufferSizeInBytes_unsupported K a hf] at hi
  have hh : (AudioTrack.create K t env a).2.2.history = env.history ++
      (JniCall.FindClass "android/media/AudioTrack" ::
       JniCall.GetMethodID cls "<init>" "(IIIIII)V" ::
       JniCall.NewObject cls ctor [a.stream_type, a.sample_rate, cfg, a.format, 0, a.mode] ::
       rest) := by
    rw [hr, hi]
    simp
  refine ⟨⟨cls, ctor, cfg, rest, hh, hn⟩, ?_, create_result_iff K t env a hu⟩
  rw [hh, instantiations_append]
  simp [instantiations, hn]

/-- Witness of `create_unsupported_format`: encoding `99` on a fresh track. -/
theorem create_unsupported_format_witness :
    freshTrack.obj_ = 0 ∧
    androidConsts.get_sample_size_from_encoding unsupportedArgs.format = 0 ∧
    instantiations
      (AudioTrack.create androidConsts freshTrack (JNIEnv.fresh okPlatform)
        unsupportedArgs).2.2.history = instantiations (JNIEnv.fresh okPlatform).history + 1 :=
  ⟨by decide, by decide,
   (create_unsupported_format androidConsts freshTrack (JNIEnv.fresh okPlatform) unsupportedArgs
      (by decide) (by decide)).2.1⟩

/-- C7: on an uncreated track whose instantiation yields a non-null object, `create` returns
success if and only if all ten control entry points resolved and at least one compatible
write entry point resolved (byte-buffer always; short-array only for 16-bit PCM;
float-array only for float PCM). -/
theorem create_success_iff (K : Consts) (t : AudioTrack) (env : JNIEnv) (a : CreateArgs)
    (hu : t.obj_ = 0) (ho : (create_instantiate K env a).obj ≠ 0) :
    (AudioTrack.create K t env a).1 = true ↔
      ((create_entryPoints K env a).controlsResolved ∧
        (create_entryPoints K env a).writeCompatible K a.format) := by
  rw [create_result_iff K t env a hu]
  exact ⟨fun h => h.2, fun h => ⟨ho, h⟩⟩

/-- Witness of `create_success_iff`: on the platform without `stop` the control entry points
are not all resolved, and `create` does not succeed. -/
theorem create_success_iff_witness :
    freshTrack.obj_ = 0 ∧
    (create_instantiate androidConsts (JNIEnv.fresh noStopPlatform) scenarioArgs).obj ≠ 0 ∧
    ¬ (AudioTrack.create androidConsts freshTrack (JNIEnv.fresh noStopPlatform)
        scenarioArgs).1 = true :=
  ⟨by decide, by decide, fun h =>
    absurd ((create_success_iff androidConsts freshTrack (JNIEnv.fresh noStopPlatform)
      scenarioArgs (by decide) (by decide)).mp h).1 (by decide)⟩

/-- C8: each of `play`, `pause`, `stop`, `flush`, on every track and environment: with its
entry point unresolved or a fault pending on entry it returns `ERROR_INVALID_OPERATION` and
the environment is untouched (nothing is invoked); otherwise it invokes its entry point
exactly once, no fault is pending on return, and it returns `SUCCESS` if the invocation
raised no fault and `ERROR_INVALID_OPERATION` if it did.  All four are the one algorithm
`controlAlgorithm`, applied to their own entry point. -/
theorem control_ops_contract (K : Consts) (op : ControlOp) (t : AudioTrack) (env : JNIEnv) :
    ((op.entryPoint t = 0 ∨ env.pending = true) →
      op.run K t env = (K.ERROR_INVALID_OPERATION, env)) ∧
    ((op.entryPoint t ≠ 0 ∧ env.pending = false) →
      (op.run K t env).2.history =
        env.history ++ [JniCall.CallNonvirtualVoidMethod t.obj_ t.cls_ (op.entryPoint t)] ∧
      (op.run K t env).2.pending = false ∧
      ((env.reply (JniCall.CallNonvirtualVoidMethod t.obj_ t.cls_ (op.entryPoint t))).throws
          = false → (op.run K t env).1 = K.SUCCESS) ∧
      ((env.reply (JniCall.CallNonvirtualVoidMethod t.obj_ t.cls_ (op.entryPoint t))).throws
          = true → (op.run K t env).1 = K.ERROR_INVALID_OPERATION)) ∧
    op.run K t env = controlAlgorithm K t.obj_ t.cls_ (op.entryPoint t) env := by
  rw [controlOp_run_eq K op t env]
  unfold controlAlgorithm JNIEnv.call JNIEnv.ExceptionClear JNIEnv.reply
  refine ⟨?_, ?_, rfl⟩
  · intro h
    rw [if_pos h]
  · rintro ⟨hm, hp⟩
    by_cases ht : (env.platform env.history false
        (JniCall.CallNonvirtualVoidMethod t.obj_ t.cls_ (op.entryPoint t))).throws = true
    · simp [hm, hp, ht]
    · simp [hm, hp, ht]

/-- Witness of `control_ops_contract`: `play` on the created track of the scenario returns
`SUCCESS`; `stop` on a platform whose invocations raise returns `ERROR_INVALID_OPERATION`
with no fault pending. -/
theorem control_ops_contract_witness :
    (ControlOp.entryPoint ControlOp.play createdTrack ≠ 0 ∧ createdEnv.pending = false) ∧
    (ControlOp.run androidConsts ControlOp.play createdTrack createdEnv).1 = 0 ∧
    (ControlOp.run androidConsts ControlOp.stop createdTrack (JNIEnv.fresh faultyPlatform)).1
      = -3 ∧
    (ControlOp.run androidConsts ControlOp.stop createdTrack
      (JNIEnv.fresh faultyPlatform)).2.pending = false ∧
    ControlOp.run androidConsts ControlOp.flush freshTrack createdEnv = (-3, createdEnv) :=
  ⟨by decide,
   ((control_ops_contract androidConsts ControlOp.play createdTrack createdEnv).2.1
      (by decide)).2.2.1 (by decide),
   ((control_ops_contract androidConsts ControlOp.stop createdTrack
      (JNIEnv.fresh faultyPlatform)).2.1 (by decide)).2.2.2 (by decide),
   ((control_ops_contract androidConsts ControlOp.stop createdTrack
      (JNIEnv.fresh faultyPlatform)).2.1 (by decide)).2.1,
   (control_ops_contract androidConsts ControlOp.flush freshTrack createdEnv).1
      (Or.inl (by decide))⟩

/-- C9: each of the three write variants, on every track and environment: with its entry
point unresolved or a fault pending on entry it returns `ERROR_INVALID_OPERATION` and the
environment is untouched (the platform is not invoked); otherwise it invokes its entry point
once with its arguments, no fault is pending on return, and it returns exactly the
platform result if the invocation raised no fault and `ERROR_INVALID_OPERATION` if it
did. -/
theorem write_contract (K : Consts) (w : WriteCall) (t : AudioTrack) (env : JNIEnv) :
    ((w.entryPoint t = 0 ∨ env.pending = true) →
      w.run K t env = (K.ERROR_INVALID_OPERATION, env)) ∧
    ((w.entryPoint t ≠ 0 ∧ env.pending = false) →
      (w.run K t env).2.history = env.history ++
        [JniCall.CallNonvirtualIntMethod t.obj_ t.cls_ (w.entryPoint t) w.javaArgs] ∧
      (w.run K t env).2.pending = false ∧
      ((env.reply (JniCall.CallNonvirtualIntMethod t.obj_ t.cls_ (w.entryPoint t)
          w.javaArgs)).throws = false →
        (w.run K t env).1 = (env.reply (JniCall.CallNonvirtualIntMethod t.obj_ t.cls_
          (w.entryPoint t) w.javaArgs)).value) ∧
      ((env.reply (JniCall.CallNonvirtualIntMethod t.obj_ t.cls_ (w.entryPoint t)
          w.javaArgs)).throws = true →
        (w.run K t env).1 = K.ERROR_INVALID_OPERATION)) := by
  cases w with
  | shortArray data offset size =>
    exact intOp_contract K.ERROR_INVALID_OPERATION t.obj_ t.cls_ t.m_write_sa_ _ env _ rfl
  | floatArray data offset size mode =>
    exact intOp_contract K.ERROR_INVALID_OPERATION t.obj_ t.cls_ t.m_write_fa_ _ env _ rfl
  | byteBuffer data size_in_bytes mode =>
    exact intOp_contract K.ERROR_INVALID_OPERATION t.obj_ t.cls_ t.m_write_bb_ _ env _ rfl

/-- Witness of `write_contract`: the short-array write on the created track of the scenario
returns the platform result `1`, and the negative code `-6` unchanged on a platform that
reports it; a write whose invocation raises returns `ERROR_INVALID_OPERATION`; a write on
a fresh track returns `ERROR_INVALID_OPERATION` and leaves the environment untouched. -/
theorem write_contract_witness :
    (WriteCall.entryPoint (WriteCall.shortArray 9 0 512) createdTrack ≠ 0 ∧
      createdEnv.pending = false) ∧
    (WriteCall.run androidConsts (WriteCall.shortArray 9 0 512) createdTrack createdEnv).1 = 1 ∧
    (WriteCall.run androidConsts (WriteCall.shortArray 9 0 512) createdTrack
      (JNIEnv.fresh errorCodePlatform)).1 = -6 ∧
    (WriteCall.run androidConsts (WriteCall.byteBuffer 9 512 0) createdTrack
      (JNIEnv.fresh faultyPlatform)).1 = -3 ∧
    WriteCall.run androidConsts (WriteCall.floatArray 9 0 512 0) freshTrack createdEnv
      = (-3, createdEnv) :=
  ⟨by decide,
   ((write_contract androidConsts (WriteCall.shortArray 9 0 512) createdTrack createdEnv).2
      (by decide)).2.2.1 (by decide),
   ((write_contract androidConsts (WriteCall.shortArray 9 0 512) createdTrack
      (JNIEnv.fresh errorCodePlatform)).2 (by decide)).2.2.1 (by decide),
   ((write_contract androidConsts (WriteCall.byteBuffer 9 512 0) createdTrack
      (JNIEnv.fresh faultyPlatform)).2 (by decide)).2.2.2 (by decide),
   (write_contract androidConsts (WriteCall.floatArray 9 0 512 0) freshTrack createdEnv).1
      (Or.inl (by decide))⟩

/-- C10: `getAudioSessionId`, on every track and environment, returns `0` with the
environment untouched (no invocation) when its entry point is unresolved or a fault is
pending on entry; otherwise it invokes its entry point once, no fault is pending on return,
and it returns `0` if the invocation raised a fault and exactly the platform result if it
did not.  So where `ERROR_INVALID_OPERATION` is not `0`, none of the three failure cases
returns `ERROR_INVALID_OPERATION`. -/
theorem getAudioSessionId_contract (K : Consts) (t : AudioTrack) (env : JNIEnv) :
    ((t.m_get_audio_session_ = 0 ∨ env.pending = true) →
      t.getAudioSessionId env = (0, env)) ∧
    ((t.m_get_audio_session_ ≠ 0 ∧ env.pending = false) →
      (t.getAudioSessionId env).2.history = env.history ++
        [JniCall.CallNonvirtualIntMethod t.obj_ t.cls_ t.m_get_audio_session_ []] ∧
      (t.getAudioSessionId env).2.pending = false ∧
      ((env.reply (JniCall.CallNonvirtualIntMethod t.obj_ t.cls_ t.m_get_audio_session_
          [])).throws = false →
        (t.getAudioSessionId env).1 = (env.reply (JniCall.CallNonvirtualIntMethod t.obj_ t.cls_
          t.m_get_audio_session_ [])).value) ∧
      ((env.reply (JniCall.CallNonvirtualIntMethod t.obj_ t.cls_ t.m_get_audio_session_
          [])).throws = true →
        (t.getAudioSessionId env).1 = 0)) ∧
    (K.ERROR_INVALID_OPERATION ≠ 0 →
      (t.m_get_audio_session_ = 0 ∨ env.pending = true ∨
        (env.reply (JniCall.CallNonvirtualIntMethod t.obj_ t.cls_ t.m_get_audio_session_
          [])).throws = true) →
      (t.getAudioSessionId env).1 ≠ K.ERROR_INVALID_OPERATION) := by
  have h := intOp_contract 0 t.obj_ t.cls_ t.m_get_audio_session_ [] env
    (t.getAudioSessionId env) rfl
  refine ⟨h.1, h.2, ?_⟩
  intro hK hcase
  have h0 : (t.getAudioSessionId env).1 = 0 := by
    rcases hcase with hm | hp | ht
    · rw [h.1 (Or.inl hm)]
    · rw [h.1 (Or.inr hp)]
    · by_cases hm : t.m_get_audio_session_ = 0
      · rw [h.1 (Or.inl hm)]
      · cases hp : env.pending
        · exact (h.2 ⟨hm, hp⟩).2.2.2 ht
        · rw [h.1 (Or.inr hp)]
  rw [h0]
  exact fun hc => hK hc.symm

/-- Witness of `getAudioSessionId_contract`: `0` on a fresh track, `0` when the invocation
raises, the platform result `1` otherwise. -/
theorem getAudioSessionId_contract_witness :
    AudioTrack.getAudioSessionId freshTrack createdEnv = (0, createdEnv) ∧
    (AudioTrack.getAudioSessionId createdTrack (JNIEnv.fresh faultyPlatform)).1 = 0 ∧
    (AudioTrack.getAudioSessionId createdTrack createdEnv).1 = 1 ∧
    (AudioTrack.getAudioSessionId createdTrack (JNIEnv.fresh faultyPlatform)).1
      ≠ androidConsts.ERROR_INVALID_OPERATION :=
  ⟨(getAudioSessionId_contract androidConsts freshTrack createdEnv).1 (Or.inl (by decide)),
   ((getAudioSessionId_contract androidConsts createdTrack (JNIEnv.fresh faultyPlatform)).2.1
      (by decide)).2.2.2 (by decide),
   ((getAudioSessionId_contract androidConsts createdTrack createdEnv).2.1
      (by decide)).2.2.1 (by decide),
   (getAudioSessionId_contract androidConsts createdTrack (JNIEnv.fresh faultyPlatform)).2.2
      (by decide) (Or.inr (Or.inr (by decide)))⟩

end oslmp.impl
